import Mathlib

/-!
Verification of the concurrent multi-source aggregation layer of the
PHARAMAGENIE_AI repository: the orchestrating fan-out/fan-in routine
`analyze_drug` in `app.py`, the per-agent retry/rate-limit/cache helpers in
`agents/clinical_trials_agent.py`, `agents/fda_agent.py`,
`agents/trade_agent.py`, `agents/web_intel_agent.py`, and the seeded
pseudo-random generators in `agents/patent_agent.py` and
`agents/internal_insights_agent.py`.

Python strings are modelled as lists of characters (`Str`), Python dicts and
heterogeneous values as the inductive `PyVal`, wall-clock instants as rational
or integer numbers, and `datetime` values as proleptic-Gregorian day numbers.
-/

/-- Python strings, modelled as their list of characters. -/
abbrev Str := List Char

/-- Coerce a Lean string literal into the character-list model. -/
def chars (s : String) : Str := s.data

/-- Model of Python `str.lower()` (ASCII case folding). -/
def lowerL (s : Str) : Str := s.map Char.toLower

/-- Model of `sum(ord(c) for c in s.lower())`, the seed both simulated agents
derive from a drug name (`patent_agent.py` line 13,
`internal_insights_agent.py` line 20). -/
def charSum (s : Str) : ℕ := ((lowerL s).map Char.toNat).sum

/-- Prefix test: `isPrefixOfL n l` holds when the characters `n` appear at the start of
`l`; building block for Python's substring operator. -/
def isPrefixOfL : Str → Str → Bool
  | [], _ => true
  | _ :: _, [] => false
  | a :: as, b :: bs => a == b && isPrefixOfL as bs

/-- Model of Python's `needle in haystack` substring test: `n` occurs
contiguously somewhere in `l`. -/
def containsSubL (n : Str) : Str → Bool
  | [] => isPrefixOfL n []
  | c :: t => isPrefixOfL n (c :: t) || containsSubL n t

/-- Lexicographic `≤` on character lists, modelling Python string
comparison. -/
def strLe : Str → Str → Bool
  | [], _ => true
  | _ :: _, [] => false
  | a :: as, b :: bs => if a < b then true else if b < a then false else strLe as bs

/-- Insert `x` into `l` before the first element `y` with `le x y`; helper for
the stable sort modelling Python's `sorted`. -/
def insertBy (le : α → α → Bool) (x : α) : List α → List α
  | [] => [x]
  | y :: ys => if le x y then x :: y :: ys else y :: insertBy le x ys

/-- Stable insertion sort; `le x y` means `x` may come at or before `y`.
With `le x y := key x ≥ key y` this models Python's stable
`sorted(..., reverse=True)`. -/
def sortBy (le : α → α → Bool) : List α → List α
  | [] => []
  | x :: xs => insertBy le x (sortBy le xs)

/-- Decimal digits of a natural number (model of Python `str(n)` inside
f-strings). -/
def natChars (n : ℕ) : Str := (toString n).data

/-- Zero-padded two-digit rendering, as produced by `strftime('%m')` and
`strftime('%d')`. -/
def pad2 (n : ℕ) : Str := if n < 10 then '0' :: natChars n else natChars n

/-! ### Proleptic Gregorian day arithmetic

`datetime` values in the patent agent are midnight instants; we model them as
day numbers relative to 1970-01-01 (negative before), using the standard
civil-calendar conversion algorithms.  `datetime(y, m, d)` becomes
`daysFromCivil y m d`, `date + timedelta(days = k)` becomes `+ k`, `<` on
datetimes becomes `<` on day numbers, and `.year` becomes `yearOfDay`. -/

/-- Day number of the civil date `y-m-d` (days since 1970-01-01). -/
def daysFromCivil (y m d : ℤ) : ℤ :=
  let y' := if m ≤ 2 then y - 1 else y
  let era := (if 0 ≤ y' then y' else y' - 399) / 400
  let yoe := y' - era * 400
  let doy := (153 * (if 2 < m then m - 3 else m + 9) + 2) / 5 + d - 1
  let doe := yoe * 365 + yoe / 4 - yoe / 100 + doy
  era * 146097 + doe - 719468

/-- Civil date `(y, m, d)` of a day number. -/
def civilFromDays (z : ℤ) : ℤ × ℤ × ℤ :=
  let z' := z + 719468
  let era := (if 0 ≤ z' then z' else z' - 146096) / 146097
  let doe := z' - era * 146097
  let yoe := (doe - doe / 1460 + doe / 36524 - doe / 146096) / 365
  let y := yoe + era * 400
  let doy := doe - (365 * yoe + yoe / 4 - yoe / 100)
  let mp := (5 * doy + 2) / 153
  let d := doy - (153 * mp + 2) / 5 + 1
  let m := if mp < 10 then mp + 3 else mp - 9
  (if m ≤ 2 then y + 1 else y, m, d)

/-- Model of `datetime.year`. -/
def yearOfDay (z : ℤ) : ℤ := (civilFromDays z).1

/-- Model of `datetime.strftime('%Y-%m-%d')`. -/
def fmtDate (z : ℤ) : Str :=
  let (y, m, d) := civilFromDays z
  natChars y.toNat ++ chars "-" ++ pad2 m.toNat ++ chars "-" ++ pad2 d.toNat

/-- Predicate `hasChar n c` : the character `c` occurs in `n`. -/
def hasChar (n : Str) (c : Char) : Bool := n.any (· == c)

/-! ### Abstract pseudo-random generator

The simulated agents call `random.seed(seed)` followed by a fixed sequence of
`random.randint` / `random.choice` draws.  The generator itself (CPython's
Mersenne Twister) is modelled abstractly: a `PRng` supplies the seeding map
and the two drawing primitives over an explicit state of type `ℕ`.  All
theorems about the simulated agents quantify over the generator. -/

structure PRng where
  /-- Model of `random.seed s` : the internal state obtained from seed `s`. -/
  seedFn : ℕ → ℕ
  /-- Model of `random.randint lo hi` : a draw (inclusive bounds in the source)
  and the successor state. -/
  randint : ℕ → ℕ → ℕ → ℕ × ℕ
  /-- the index drawn by `random.choice` from a sequence of given length. -/
  choiceIdx : ℕ → ℕ → ℕ × ℕ

/-- Model of `random.choice(xs)` for a list of strings. -/
def pyChoice (g : PRng) (xs : List Str) (s : ℕ) : Str × ℕ :=
  let d := g.choiceIdx xs.length s
  (xs.getD d.1 [], d.2)

/-- Model of the list comprehension
`[random.randint(lo, hi) for _ in range(n)]`. -/
def drawRandints (g : PRng) (lo hi : ℕ) : ℕ → ℕ → List ℕ × ℕ
  | 0, s => ([], s)
  | n + 1, s =>
    let d := g.randint lo hi s
    let rest := drawRandints g lo hi n d.2
    (d.1 :: rest.1, rest.2)

/-! ### `agents/patent_agent.py` — `PatentLandscapeAgent.get_patent_analysis` -/

/-- One entry of the simulated patent timeline (the dict built at
`patent_agent.py` lines 32–38). -/
structure PatentEntry where
  patentNumber : Str
  filingDate : Str
  expiryDate : Str
  status : Str
  title : Str

/-- The dict returned by `get_patent_analysis` (lines 71–77); `next_expiry`
is `none` where the source puts the string `'N/A'`. -/
structure PatentAnalysis where
  activePatents : ℕ
  freedomToOperate : Str
  nextExpiry : Option ℤ
  patentTimeline : List PatentEntry
  keyInsights : List Str

/-- The title interpolated for the `i`-th timeline entry (line 37). -/
def patentTitle (i : ℕ) (drugName : Str) : Str :=
  if i % 2 == 0 then
    chars "Composition and method for " ++ drugName ++ chars " formulation"
  else
    chars "Method of treating disease using " ++ drugName

/-- Loop body of `for i, year in enumerate(filing_years)` (lines 23–42):
draws month, day and the patent-number fragments, builds the timeline dict
and returns it with the expiry day and the advanced generator state. -/
def patentEntryStep (now : ℤ) (g : PRng) (drugName : Str) (i year : ℕ) (s : ℕ) :
    PatentEntry × ℤ × ℕ :=
  let dMonth := g.randint 1 12 s
  let dDay := g.randint 1 28 dMonth.2
  let filingDay := daysFromCivil (year : ℤ) (dMonth.1 : ℤ) (dDay.1 : ℤ)
  let expiryDay := filingDay + 20 * 365
  let status := if expiryDay < now then chars "Expired" else chars "Active"
  let d1 := g.randint 7 11 dDay.2
  let d2 := g.randint 100 999 d1.2
  let d3 := g.randint 100 999 d2.2
  let d4 := g.randint 1 2 d3.2
  let patentNumber :=
    chars "US" ++ natChars d1.1 ++ natChars d2.1 ++ natChars d3.1 ++ chars "B" ++ natChars d4.1
  (⟨patentNumber, fmtDate filingDay, fmtDate expiryDay, status, patentTitle i drugName⟩,
   expiryDay, d4.2)

/-- The timeline loop: also threads `next_expiry_date` (lines 21, 40–42). -/
def buildTimeline (now : ℤ) (g : PRng) (drugName : Str) :
    List (ℕ × ℕ) → ℕ → Option ℤ → List PatentEntry × Option ℤ × ℕ
  | [], s, ne => ([], ne, s)
  | (i, year) :: rest, s, ne =>
    let step := patentEntryStep now g drugName i year s
    let ne' := if step.1.status = chars "Active" then
        match ne with
        | none => some step.2.1
        | some e => if step.2.1 < e then some step.2.1 else some e
      else ne
    let tail := buildTimeline now g drugName rest step.2.2 ne'
    (step.1 :: tail.1, tail.2)

/-- Freedom-to-operate, insights and final dict (lines 44–77), computed from
the patent count, the assembled timeline and the earliest active expiry.
`2 * formulationPatents > cnt` renders the exact float comparison
`formulation_patents > active_patents_count / 2`. -/
def assemblePatent (now : ℤ) (cnt : ℕ) (timeline : List PatentEntry)
    (nextExpiryDay : Option ℤ) : PatentAnalysis :=
  let activeCoreCount := timeline.countP
    (fun p => decide (p.status = chars "Active") &&
      containsSubL (chars "composition") (lowerL p.title))
  let nearExpiry : Bool := match nextExpiryDay with
    | some e => decide (yearOfDay e - yearOfDay now < 3)
    | none => false
  let fto := if activeCoreCount = 0 then chars "High"
    else if activeCoreCount ≤ 2 && nearExpiry then chars "Moderate"
    else chars "Low"
  let insightsA := match nextExpiryDay with
    | some e => [chars "Key composition patent expires in " ++ natChars (yearOfDay e).toNat ++
        chars ", opening opportunities for generics."]
    | none => []
  let insightsB := insightsA ++
    [if fto = chars "Low" then
        chars "Low freedom to operate suggests high litigation risk for new market entrants."
      else if fto = chars "Moderate" then
        chars "Moderate FTO indicates potential for strategic partnerships or licensing."
      else
        chars "High FTO suggests a favorable environment for new product development."]
  let formulationPatents := timeline.countP
    (fun p => containsSubL (chars "formulation") (lowerL p.title))
  let insightsC := insightsB ++
    [if cnt < 2 * formulationPatents then
        chars "A significant number of patents relate to formulation, indicating a mature product lifecycle."
      else
        chars "Focus on method-of-use patents suggests exploration of new therapeutic areas."]
  { activePatents := timeline.countP (fun p => decide (p.status = chars "Active")),
    freedomToOperate := fto,
    nextExpiry := nextExpiryDay.map yearOfDay,
    patentTimeline := timeline,
    keyInsights := insightsC }

/-- Model of `PatentLandscapeAgent.get_patent_analysis(drug_name)`, with the current
time (`datetime.now()`, a midnight-free day number) and the generator as
explicit parameters. -/
def getPatentAnalysis (g : PRng) (now : ℤ) (drugName : Str) : PatentAnalysis :=
  let seed := charSum drugName
  let s0 := g.seedFn seed
  let dCnt := g.randint 2 15 s0
  let dYears := drawRandints g 2005 2022 dCnt.1 dCnt.2
  let filingYears := sortBy (fun a b => decide (b ≤ a)) dYears.1
  let bt := buildTimeline now g drugName filingYears.enum dYears.2 none
  assemblePatent now dCnt.1 bt.1 bt.2.1

/-! ### `agents/internal_insights_agent.py` — `_get_or_create_drug_profile` -/

/-- One simulated previous-research project (lines 26–36). -/
structure Project where
  title : Str
  date : Str
  status : Str
  summary : Str

/-- The `strategic_fit` dict (lines 50–54). -/
structure StrategicFit where
  level : Str
  score : ℕ
  rationale : Str

/-- The profile dict (lines 56–64). -/
structure Profile where
  previousResearch : List Project
  strategicFit : StrategicFit
  keyInsights : List Str

/-- Body of the projects loop (lines 26–36); draw order follows the source:
year, status, team, then the title number and quarter inside the dict
literal. -/
def projectStep (g : PRng) (drugName : Str) (s : ℕ) : Project × ℕ :=
  let dYear := g.randint 2018 2023 s
  let dStatus := pyChoice g
    [chars "Completed", chars "On-Hold", chars "Pitched", chars "In-Progress"] dYear.2
  let dTeam := pyChoice g
    [chars "Oncology", chars "Cardiology", chars "Neurology", chars "Immunology"] dStatus.2
  let summary := chars "Project in " ++ dTeam.1 ++ chars " exploring " ++ drugName ++
    chars " for a novel indication. Status: " ++ dStatus.1 ++ chars "."
  let dTitleNum := g.randint 100 999 dTeam.2
  let dQuarter := g.randint 1 4 dTitleNum.2
  (⟨dTeam.1 ++ chars " Research Project #" ++ natChars dTitleNum.1,
    natChars dYear.1 ++ chars "-Q" ++ natChars dQuarter.1,
    dStatus.1, summary⟩, dQuarter.2)

/-- Accumulation of projects over `for i in range(num_projects)`. -/
def buildProjects (g : PRng) (drugName : Str) : ℕ → ℕ → List Project × ℕ
  | 0, s => ([], s)
  | n + 1, s =>
    let p := projectStep g drugName s
    let rest := buildProjects g drugName n p.2
    (p.1 :: rest.1, rest.2)

/-- The profile-creation path of `_get_or_create_drug_profile`
(lines 19–67). -/
def createDrugProfile (g : PRng) (drugName : Str) : Profile :=
  let seed := charSum drugName
  let s0 := g.seedFn seed
  let dNum := g.randint 0 4 s0
  let dProjects := buildProjects g drugName dNum.1 dNum.2
  let dFit := g.randint 30 95 dProjects.2
  let fitScore := dFit.1
  let lrs : Str × Str × ℕ :=
    if 75 < fitScore then
      let dPipeline := pyChoice g
        [chars "oncology", chars "rare diseases", chars "immunology"] dFit.2
      (chars "High",
       chars "Strongly aligns with our current focus on the " ++ dPipeline.1 ++
         chars " pipeline.", dPipeline.2)
    else if 50 < fitScore then
      (chars "Medium",
       chars "Potential alignment with future strategic interests, but not a current top priority.",
       dFit.2)
    else
      (chars "Low",
       chars "Does not align with our primary therapeutic areas. Represents a diversification opportunity.",
       dFit.2)
  let level := lrs.1
  let dArea := pyChoice g
    [chars "pharmacokinetics", chars "formulation", chars "toxicology"] lrs.2.2
  let dStrength := pyChoice g [chars "strong", chars "moderate", chars "nascent"] dArea.2
  { previousResearch := sortBy (fun x y => strLe y.date x.date) dProjects.1,
    strategicFit := ⟨level, fitScore, lrs.2.1⟩,
    keyInsights :=
      [chars "Internal expertise in the " ++ dArea.1 ++ chars " of " ++ drugName ++
         chars " is considered " ++ dStrength.1 ++ chars ".",
       chars "A total of " ++ natChars dNum.1 ++ chars " internal projects related to " ++
         drugName ++ chars " have been identified.",
       chars "Strategic fit score of " ++ natChars fitScore ++ chars "/100 suggests a " ++
         lowerL level ++ chars " priority for further investment."] }

/-- Model of `InternalInsightsAgent._get_or_create_drug_profile`, with the in-memory
`_internal_db` as explicit state; returns the profile and the updated
database. -/
def getOrCreateDrugProfile (g : PRng) (db : List (Str × Profile)) (drugName : Str) :
    Profile × List (Str × Profile) :=
  let drugKey := lowerL drugName
  match db.lookup drugKey with
  | some p => (p, db)
  | none =>
    let profile := createDrugProfile g drugName
    (profile, (drugKey, profile) :: db)

/-! ### Name-free projections used by the determinism claim -/

/-- The non-title data of a timeline entry. -/
def entryKeyData (p : PatentEntry) : Str × Str × Str × Str :=
  (p.patentNumber, p.filingDate, p.expiryDate, p.status)

/-- Entry data together with the two substring tests the agent performs on
the (name-bearing) title. -/
def entryFlags (p : PatentEntry) : (Str × Str × Str × Str) × Bool × Bool :=
  (entryKeyData p,
   containsSubL (chars "composition") (lowerL p.title),
   containsSubL (chars "formulation") (lowerL p.title))

/-- Everything in a `PatentAnalysis` except the name-bearing titles. -/
def patentCore (a : PatentAnalysis) :
    ℕ × Str × Option ℤ × List (Str × Str × Str × Str) × List Str :=
  (a.activePatents, a.freedomToOperate, a.nextExpiry,
   a.patentTimeline.map entryKeyData, a.keyInsights)

/-- The non-summary data of a project (its summary interpolates the drug
name). -/
def projectCore (p : Project) : Str × Str × Str := (p.title, p.date, p.status)

/-- The name-free content of a profile: projected research projects, the full
strategic fit, the number of insights and the name-free third insight (the
first two insights interpolate the drug name). -/
def profileCore (pr : Profile) : List (Str × Str × Str) × (Str × ℕ × Str) × ℕ × Str :=
  (pr.previousResearch.map projectCore,
   (pr.strategicFit.level, pr.strategicFit.score, pr.strategicFit.rationale),
   pr.keyInsights.length, pr.keyInsights.getD 2 [])

/-- A concrete generator instance (always draws the lower bound), used to
evaluate the simulated agents on concrete inputs. -/
def rngLo : PRng := ⟨id, fun lo _ s => (lo, s + 1), fun _ s => (0, s + 1)⟩

/-! ### `agents/clinical_trials_agent.py` — `_rate_limit`

`_rate_limit` compares `time.time()` against `self.last_request_time`, sleeps
for the remainder of `min_request_interval`, and stamps the post-sleep time.
We model wall-clock instants as rationals (a logical clock): a call arriving
at time `t` is released at `t` itself, or at `last + interval` after the
sleep, and the release instant becomes the new `last_request_time`. -/

/-- One `_rate_limit` call (lines 30–35): given the arrival instant and the
stored `last_request_time`, returns the instant at which the subsequent
request is issued, which is also the new `last_request_time`. -/
def rateLimit (minInterval : ℚ) (arrival last : ℚ) : ℚ :=
  let elapsed := arrival - last
  if elapsed < minInterval then arrival + (minInterval - elapsed) else arrival

/-- Release instants of a sequence of calls on one agent instance, threading
`last_request_time` (initially `0`, line 27). -/
def issueTimes (minInterval : ℚ) (last : ℚ) : List ℚ → List ℚ
  | [] => []
  | t :: ts =>
    let r := rateLimit minInterval t last
    r :: issueTimes minInterval r ts

/-! ### Retry wrappers

An upstream interaction is modelled per attempt: either the `requests` call
raises (`netErr`: timeout, connection error, …) or an HTTP response with a
status code and an opaque parsed body arrives.  `raise_for_status()` raises
`HTTPError` — a `RequestException` — for every code ≥ 400. -/

/-- Outcome of one `session.get`/`requests.get` call. -/
inductive Resp where
  /-- a response with HTTP status `code`, parsed JSON body `body`, and an
  optional integer `Retry-After` header -/
  | status (code : ℕ) (body : ℕ) (retryAfter : Option ℕ)
  | netErr
deriving DecidableEq

/-- Result of `ClinicalTrialsAgent._get_with_retry` together with the
observable effects the claims talk about: the number of requests issued and
the durations of the backoff sleeps, in order. -/
structure RetryTrace where
  result : Option ℕ
  attempts : ℕ
  sleeps : List ℚ
deriving DecidableEq

/-- Loop of `_get_with_retry` (`clinical_trials_agent.py` lines 39–51) over
the attempt indices `range(max_retries)`; `jitter k` is the value of
`random.uniform(0, 1)` added to the backoff after failed attempt `k`. -/
def clinicalRunAttempts (resp : ℕ → Resp) (jitter : ℕ → ℚ) (maxRetries : ℕ) :
    List ℕ → RetryTrace
  | [] => ⟨none, 0, []⟩
  | attempt :: rest =>
    let failed (t : RetryTrace) : RetryTrace :=
      if attempt = maxRetries - 1 then ⟨none, 1, []⟩
      else ⟨t.result, t.attempts + 1, ((2 : ℚ) ^ attempt + jitter attempt) :: t.sleeps⟩
    match resp attempt with
    | .status code body _ =>
      if code < 400 then ⟨some body, 1, []⟩
      else failed (clinicalRunAttempts resp jitter maxRetries rest)
    | .netErr => failed (clinicalRunAttempts resp jitter maxRetries rest)

/-- Model of `ClinicalTrialsAgent._get_with_retry(url, params, max_retries)`: runs the
attempts; falling off the loop returns `None`. -/
def getWithRetry (resp : ℕ → Resp) (jitter : ℕ → ℚ) (maxRetries : ℕ) : RetryTrace :=
  clinicalRunAttempts resp jitter maxRetries (List.range maxRetries)

/-- Loop of `TradeAgent._make_api_request` (`trade_agent.py` lines 51–70):
retries every `RequestException` (both `except` arms behave identically) with
no sleeps; returns the parsed body or `None`, paired with the number of
requests issued. -/
def tradeRunAttempts (resp : ℕ → Resp) (retries : ℕ) : List ℕ → Option ℕ × ℕ
  | [] => (none, 0)
  | attempt :: rest =>
    let failed : Option ℕ × ℕ :=
      if attempt < retries - 1 then
        let (r, n) := tradeRunAttempts resp retries rest
        (r, n + 1)
      else (none, 1)
    match resp attempt with
    | .status code body _ => if code < 400 then (some body, 1) else failed
    | .netErr => failed

/-- Model of `TradeAgent._make_api_request(base_url, endpoint, params, retries)`. -/
def tradeMakeApiRequest (resp : ℕ → Resp) (retries : ℕ) : Option ℕ × ℕ :=
  tradeRunAttempts resp retries (List.range retries)

/-! ### `agents/fda_agent.py` — `_make_api_request`

`fda_agent.py` imports `os`, `requests`, `pandas`, `typing`, `logging` and
`datetime` — but never `time`.  Both sleep sites (`time.sleep(retry_after)`
on the 429 branch, line 56, and the backoff `time.sleep(min(2 ** attempt,
10))`, line 67) therefore raise `NameError` when reached, and nothing catches
it (the backoff sleep sits in the `except` handler itself).  The embedding
returns `Except`: `.error` is an exception escaping `_make_api_request`. -/

/-- Model of the `FDAAgent._make_api_request` attempt loop (lines 40–67). -/
def fdaRunAttempts (resp : ℕ → Resp) : List ℕ → Except Str (Option ℕ) × ℕ
  | [] => (.ok none, 0)
  | attempt :: _rest =>
    match resp attempt with
    | .status 429 _ _ =>
      -- `retry_after = int(response.headers.get('Retry-After', 5))` is
      -- computed, then `time.sleep(retry_after)` raises NameError.
      (.error (chars "NameError: name 'time' is not defined"), 1)
    | .status code body _ =>
      if code < 400 then (.ok (some body), 1)
      else (.error (chars "NameError: name 'time' is not defined"), 1)
    | .netErr => (.error (chars "NameError: name 'time' is not defined"), 1)

/-- Model of `FDAAgent._make_api_request(url, max_retries)`: result (or escaping
exception) paired with the number of requests issued. -/
def fdaMakeApiRequest (resp : ℕ → Resp) (maxRetries : ℕ) : Except Str (Option ℕ) × ℕ :=
  fdaRunAttempts resp (List.range maxRetries)

/-! ### TTL caches (`web_intel_agent.py` lines 23–32, `trade_agent.py`
lines 130–140)

Both caches store `(data, timestamp)` pairs in a dict and evaluate expiry
lazily on read with a strict `<` comparison; nothing ever deletes entries.
Instants and TTLs are rationals (seconds). -/

/-- Model of `WebIntelligenceAgent._get_cached(key)`; `ttl` is `self.cache_ttl`
(6 hours) and `now` is `datetime.now()`. -/
def webGetCached (cache : List (Str × ℕ × ℚ)) (ttl now : ℚ) (key : Str) : Option ℕ :=
  match cache.lookup key with
  | some (data, timestamp) => if now - timestamp < ttl then some data else none
  | none => none

/-- Model of `WebIntelligenceAgent._set_cached(key, data)`. -/
def webSetCached (cache : List (Str × ℕ × ℚ)) (now : ℚ) (key : Str) (data : ℕ) :
    List (Str × ℕ × ℚ) :=
  (key, data, now) :: cache

/-- Model of `TradeAgent._get_cached_data(key)`; `ttl` is `self.cache_ttl` (3600 s). -/
def tradeGetCachedData (cache : List (Str × ℕ × ℚ)) (ttl now : ℚ) (key : Str) : Option ℕ :=
  match cache.lookup key with
  | some (data, timestamp) => if now - timestamp < ttl then some data else none
  | none => none

/-! ### `app.py` — `analyze_drug`

The fan-out/fan-in orchestrator.  `asyncio.gather(*tasks,
return_exceptions=True)` delivers, for each of the six agent tasks, either a
value or the exception the task raised; `TaskOutcomes` records that vector.
Python values flowing through the fan-in are modelled by `PyVal`; the one
load-bearing dynamic behaviour is that taking the truth value of a pandas
`DataFrame` raises `ValueError` (pandas `NDFrame.__bool__`), which matters
because `process_result(results[0], pd.DataFrame())` evaluates
`default or {}` on a `DataFrame` default. -/

/-- Python values occurring in the fan-in of `analyze_drug`. -/
inductive PyVal where
  /-- the value `None` -/
  | pyNone
  /-- a pandas `DataFrame` (payload abstracted to its rows) -/
  | frame (rows : List Str)
  /-- the result of `DataFrame.to_dict(orient='records')` -/
  | records (rows : List Str)
  /-- a dict with opaque entries -/
  | dict (entries : List (Str × Str))
deriving DecidableEq

/-- Python truthiness, `bool(v)`; raises on a `DataFrame`. -/
def pyTruthy : PyVal → Except Str Bool
  | .pyNone => .ok false
  | .frame _ => .error (chars "ValueError: The truth value of a DataFrame is ambiguous.")
  | .records rows => .ok !rows.isEmpty
  | .dict entries => .ok !entries.isEmpty

/-- Python `v or dflt` (evaluates `bool(v)` first). -/
def pyOr (v dflt : PyVal) : Except Str PyVal := do
  let b ← pyTruthy v
  pure (if b then v else dflt)

/-- Model of the inner `process_result(result, default)` (`app.py` lines
373–377): an exception becomes `default or {}`, `None` becomes `{}`. -/
def processResult (result : Except Str PyVal) (default : PyVal) : Except Str PyVal :=
  match result with
  | .error _ => do
    let b ← pyTruthy default
    pure (if b then default else .dict [])
  | .ok v => pure (if v = .pyNone then .dict [] else v)

/-- Model of `fda_data.to_dict(orient='records')` applied when
`hasattr(fda_data, 'to_dict')` (lines 383–384). -/
def frameToRecords : PyVal → PyVal
  | .frame rows => .records rows
  | v => v

/-- Fallback dict for `patent_analysis` (lines 403–407). -/
def patentDefault : PyVal := .dict
  [(chars "active_patents", chars "0"),
   (chars "freedom_to_operate", chars "N/A"),
   (chars "key_insights", chars "No patent data available")]

/-- Fallback dict for `clinical_trials` (lines 408–412). -/
def clinicalDefault : PyVal := .dict
  [(chars "phase_ii_trials", chars "0"),
   (chars "phase_iii_trials", chars "0"),
   (chars "key_insights", chars "No clinical trials data available")]

/-- Fallback dict for `web_intelligence` (lines 413–416). -/
def webDefault : PyVal := .dict
  [(chars "sources", chars ""),
   (chars "findings", chars "No web intelligence data available")]

/-- Fallback dict for `internal_insights` (lines 417–421). -/
def internalDefault : PyVal := .dict
  [(chars "previous_research", chars ""),
   (chars "strategic_fit", chars "N/A"),
   (chars "key_insights", chars "No internal insights available")]

/-- The vector of per-task outcomes delivered by
`asyncio.gather(*tasks, return_exceptions=True)` (line 370): `.error` is a
task whose call raised, `.ok` a task that returned a value. -/
structure TaskOutcomes where
  fda : Except Str PyVal
  trade : Except Str PyVal
  patent : Except Str PyVal
  clinical : Except Str PyVal
  webIntel : Except Str PyVal
  internalIns : Except Str PyVal

/-- The `analysis` dict assembled at lines 397–422 — one entry per
registered source agent. -/
structure Analysis where
  drugName : Str
  therapeuticArea : Str
  timestamp : Str
  adverseEvents : PyVal
  tradeData : PyVal
  patentAnalysis : PyVal
  clinicalTrials : PyVal
  webIntelligence : PyVal
  internalInsights : PyVal
deriving DecidableEq

/-- Fan-in of `analyze_drug` (lines 372–422): process the six gathered
outcomes and assemble the analysis record; `.error` is an exception escaping
to the outer `except` handler. -/
def analyzeCore (o : TaskOutcomes) (drugName area nowIso : Str) : Except Str Analysis := do
  let fdaData0 ← processResult o.fda (.frame [])
  let fdaData := frameToRecords fdaData0
  let tradeData ← processResult o.trade (.dict [])
  let patentAnalysis ← processResult o.patent .pyNone
  let clinicalTrials ← processResult o.clinical .pyNone
  let webIntel ← processResult o.webIntel .pyNone
  let internalInsights ← processResult o.internalIns .pyNone
  let patentFinal ← pyOr patentAnalysis patentDefault
  let clinicalFinal ← pyOr clinicalTrials clinicalDefault
  let webFinal ← pyOr webIntel webDefault
  let internalFinal ← pyOr internalInsights internalDefault
  let areaFinal := if area.isEmpty then chars "General" else area
  pure ⟨drugName, areaFinal, nowIso, fdaData, tradeData, patentFinal, clinicalFinal,
    webFinal, internalFinal⟩

/-- The value returned by `analyze_drug`: either
`{"status": "success", "analysis": ...}` or
`{"status": "error", "message": ...}`. -/
inductive Record where
  | success (analysis : Analysis)
  | failure (message : Str)
deriving DecidableEq

/-- The `status` entry of a returned record. -/
def recordStatus : Record → Str
  | .success _ => chars "success"
  | .failure _ => chars "error"

/-- Model of Python `str.strip()` (spaces only). -/
def pyStrip (s : Str) : Str :=
  ((s.dropWhile (· == ' ')).reverse.dropWhile (· == ' ')).reverse

/-- Model of `validate_drug_name` (`app.py` lines 101–106). -/
def validateDrugName (drugName : Str) : Bool :=
  !drugName.isEmpty && !(pyStrip drugName).isEmpty

/-- Model of `get_analysis_cache_key` (lines 95–99): the md5 digest of
`f"{drug_name.lower()}_{therapeutic_area.lower()}"`, modelled by the digested
string itself. -/
def analysisCacheKey (drugName area : Str) : Str :=
  lowerL drugName ++ chars "_" ++ lowerL area

/-- Result of one `analyze_drug` call: the returned record, the updated
`st.session_state` record cache, and the number of source-agent tasks
dispatched during the call. -/
structure RunResult where
  record : Record
  state : List (Str × Record)
  dispatched : ℕ

/-- Model of `analyze_drug(drug_name, therapeutic_area)` (lines 310–445):
validation, record-cache lookup, fan-out of the six agent tasks (counted by
`dispatched`), fan-in via `analyzeCore`, cache store on success; any
exception is caught by the outer handler and converted to the error
record. -/
def analyzeDrug (st : List (Str × Record)) (drugName area : Str) (o : TaskOutcomes)
    (nowIso : Str) : RunResult :=
  if !validateDrugName drugName then
    ⟨.failure (chars "Analysis error: Invalid drug name"), st, 0⟩
  else
    let key := analysisCacheKey drugName area
    match st.lookup key with
    | some record => ⟨record, st, 0⟩
    | none =>
      match analyzeCore o drugName area nowIso with
      | .ok analysis =>
        let record := Record.success analysis
        ⟨record, (key, record) :: st, 6⟩
      | .error msg => ⟨.failure (chars "Analysis error: " ++ msg), st, 6⟩

/-! ## Theorems -/

/-- Each `_rate_limit` release happens at least `minInterval` after the
previously stamped release. -/
theorem rateLimit_ge (minI t last : ℚ) : last + minI ≤ rateLimit minI t last := by
  by_cases h : t - last < minI
  · simp only [rateLimit, if_pos h]
    linarith
  · simp only [rateLimit, if_neg h]
    linarith [not_lt.mp h]

/-- C8: for a client instance with `min_request_interval = 1` second
(`clinical_trials_agent.py` line 28), every two consecutive requests issued
through the same instance are separated by at least one second: whatever the
arrival instants of the callers and the stored `last_request_time`, the
release instants produced by `_rate_limit` are spaced by `≥ 1`. -/
theorem rate_limit_consecutive_spacing (last : ℚ) (arrivals : List ℚ) :
    List.Chain' (fun r r' => r + 1 ≤ r') (issueTimes 1 last arrivals) := by
  induction arrivals generalizing last with
  | nil => simp [issueTimes]
  | cons t ts ih =>
    rw [issueTimes, List.chain'_cons']
    refine ⟨?_, ih _⟩
    intro h hh
    cases ts with
    | nil => simp [issueTimes] at hh
    | cons t' ts' =>
      rw [issueTimes, List.head?_cons] at hh
      cases hh
      exact rateLimit_ge _ _ _

/-- The retry loop issues at most one request per element of the attempt
list. -/
theorem clinicalRunAttempts_le (resp : ℕ → Resp) (jitter : ℕ → ℚ) (maxR : ℕ) :
    ∀ l : List ℕ, (clinicalRunAttempts resp jitter maxR l).attempts ≤ l.length := by
  intro l
  induction l with
  | nil => simp [clinicalRunAttempts]
  | cons a rest ih =>
    rw [clinicalRunAttempts]
    cases resp a with
    | status c b r =>
      dsimp only
      split
      · simp
      · split
        · simp
        · simpa using Nat.succ_le_succ ih
    | netErr =>
      dsimp only
      split
      · simp
      · simpa using Nat.succ_le_succ ih

/-- C4 (amended): with `max_retries = 3`, `_get_with_retry` makes at most 3
attempts in total (`for attempt in range(max_retries)` — not
`max_retries + 1`), and when every attempt fails with a transient error it
makes exactly 3 attempts with pre-jitter backoff waits `2^0` and `2^1`
seconds after failed attempts 0 and 1 (`time.sleep((2 ** attempt) +
random.uniform(0, 1))`), then returns `None`. -/
theorem retry_attempt_bound_and_backoff (resp : ℕ → Resp) (jitter : ℕ → ℚ) :
    (getWithRetry resp jitter 3).attempts ≤ 3 ∧
    getWithRetry (fun _ => Resp.netErr) jitter 3 =
      ⟨none, 3, [2 ^ 0 + jitter 0, 2 ^ 1 + jitter 1]⟩ := by
  constructor
  · simpa using clinicalRunAttempts_le resp jitter 3 (List.range 3)
  · rfl

/-- C4 (counterexample): with `max_retries = 3` and a transient failure on
every attempt, the wrapper makes 3 attempts — not the 4 (1 initial + 3
retries) the claim states. -/
theorem retry_three_attempts_not_four :
    (getWithRetry (fun _ => Resp.netErr) (fun _ => 0) 3).attempts = 3 ∧
    (getWithRetry (fun _ => Resp.netErr) (fun _ => 0) 3).attempts ≠ 4 := by
  constructor <;> decide

/-- C5 (amended): an HTTP 4xx response (429 included) raises `HTTPError` at
`raise_for_status()`, which both clients catch as a `RequestException` and
retry like any transient failure: on a persistent 4xx, `_get_with_retry`
issues 3 requests with backoff sleeps and returns `None`, and
`TradeAgent._make_api_request` issues 3 requests (no sleeps) and returns
`None` — there is no immediate non-retryable `Permanent` failure path. -/
theorem client_4xx_exhausts_retries (jitter : ℕ → ℚ) (c b : ℕ) (ra : Option ℕ)
    (hc : 400 ≤ c) :
    getWithRetry (fun _ => Resp.status c b ra) jitter 3 =
      ⟨none, 3, [2 ^ 0 + jitter 0, 2 ^ 1 + jitter 1]⟩ ∧
    tradeMakeApiRequest (fun _ => Resp.status c b ra) 3 = (none, 3) := by
  have hlt : ¬ c < 400 := by omega
  constructor
  · show clinicalRunAttempts _ jitter 3 [0, 1, 2] = _
    rw [clinicalRunAttempts]
    simp only [if_neg hlt]
    rw [clinicalRunAttempts]
    simp only [if_neg hlt]
    rw [clinicalRunAttempts]
    simp only [if_neg hlt]
    norm_num
  · show tradeRunAttempts _ 3 [0, 1, 2] = _
    rw [tradeRunAttempts]
    simp only [if_neg hlt]
    rw [tradeRunAttempts]
    simp only [if_neg hlt]
    rw [tradeRunAttempts]
    simp only [if_neg hlt]
    norm_num

/-- C5 (witness): the amended behaviour evaluated on a persistent 404. -/
theorem client_4xx_exhausts_retries_witness :
    (400 ≤ 404) ∧
    (getWithRetry (fun _ => Resp.status 404 0 none) (fun _ => 0) 3 =
      ⟨none, 3, [2 ^ 0 + 0, 2 ^ 1 + 0]⟩ ∧
    tradeMakeApiRequest (fun _ => Resp.status 404 0 none) 3 = (none, 3)) :=
  ⟨by decide, client_4xx_exhausts_retries (fun _ => 0) 404 0 none (by decide)⟩

/-- C5 (counterexample): on a persistent HTTP 404 the clients issue 3
requests (with backoff sleeps in the clinical agent), not exactly one
request with no further attempts as the claim states. -/
theorem client_4xx_retried_not_immediate :
    (getWithRetry (fun _ => Resp.status 404 0 none) (fun _ => 0) 3).attempts = 3 ∧
    (getWithRetry (fun _ => Resp.status 404 0 none) (fun _ => 0) 3).attempts ≠ 1 ∧
    (tradeMakeApiRequest (fun _ => Resp.status 404 0 none) 3).2 = 3 ∧
    (getWithRetry (fun _ => Resp.status 404 0 none) (fun _ => 0) 3).sleeps ≠ [] := by
  refine ⟨by decide, by decide, by decide, by decide⟩

/-- C6: `FDAAgent._make_api_request` does raise past its own boundary — on
any first-attempt transient failure, reaching the backoff
`time.sleep(min(2 ** attempt, 10))` raises `NameError` (the module never
imports `time`), which nothing catches: the call ends with an escaping
exception after a single request instead of returning a result value. -/
theorem fda_request_raises_name_error (resp : ℕ → Resp) (h : resp 0 = Resp.netErr) :
    fdaMakeApiRequest resp 3 =
      (.error (chars "NameError: name 'time' is not defined"), 1) := by
  show fdaRunAttempts resp [0, 1, 2] = _
  rw [fdaRunAttempts, h]

/-- C6 (witness): evaluated on a request that fails on every attempt. -/
theorem fda_request_raises_name_error_witness :
    ((fun _ : ℕ => Resp.netErr) 0 = Resp.netErr) ∧
    fdaMakeApiRequest (fun _ => Resp.netErr) 3 =
      (.error (chars "NameError: name 'time' is not defined"), 1) :=
  ⟨rfl, fda_request_raises_name_error (fun _ => Resp.netErr) rfl⟩

/-- C7: when the upstream responds 429 with `Retry-After: 3`,
`FDAAgent._make_api_request` computes `retry_after` but the subsequent
`time.sleep(retry_after)` raises `NameError` (`time` is never imported):
no sleep happens, no next attempt is issued, and the exception escapes
after exactly one request. -/
theorem fda_429_retry_after_raises_name_error (resp : ℕ → Resp) (b : ℕ)
    (h : resp 0 = Resp.status 429 b (some 3)) :
    fdaMakeApiRequest resp 3 =
      (.error (chars "NameError: name 'time' is not defined"), 1) := by
  show fdaRunAttempts resp [0, 1, 2] = _
  rw [fdaRunAttempts, h]

/-- C7 (witness): evaluated on a mock upstream returning 429 with
`Retry-After: 3`. -/
theorem fda_429_retry_after_raises_name_error_witness :
    ((fun _ : ℕ => Resp.status 429 0 (some 3)) 0 = Resp.status 429 0 (some 3)) ∧
    fdaMakeApiRequest (fun _ => Resp.status 429 0 (some 3)) 3 =
      (.error (chars "NameError: name 'time' is not defined"), 1) :=
  ⟨rfl, fda_429_retry_after_raises_name_error (fun _ => Resp.status 429 0 (some 3)) 0 rfl⟩

/-- C9 (amended): both per-source caches evaluate expiry lazily on read with
a strict comparison: a stored entry is returned exactly when
`now - stored_at < ttl` and treated as absent exactly when
`now - stored_at ≥ ttl`; the getters never mutate the cache (no sweep). -/
theorem ttl_cache_strict_lazy_expiry (cache : List (Str × ℕ × ℚ)) (ttl now : ℚ)
    (key : Str) (v : ℕ) (ts : ℚ) (h : cache.lookup key = some (v, ts)) :
    (webGetCached cache ttl now key = some v ↔ now - ts < ttl) ∧
    (webGetCached cache ttl now key = none ↔ ttl ≤ now - ts) ∧
    (tradeGetCachedData cache ttl now key = some v ↔ now - ts < ttl) ∧
    (tradeGetCachedData cache ttl now key = none ↔ ttl ≤ now - ts) := by
  unfold webGetCached tradeGetCachedData
  rw [h]
  by_cases hlt : now - ts < ttl
  · simp [hlt, not_le.mpr hlt]
  · simp [hlt, not_lt.mp hlt]

/-- C9 (witness): a fresh entry read within its TTL. -/
theorem ttl_cache_strict_lazy_expiry_witness :
    ([((chars "k"), (7, (0 : ℚ)))].lookup (chars "k") = some (7, 0)) ∧
    ((webGetCached [(chars "k", 7, 0)] 21600 21600 (chars "k") = some 7 ↔ (21600 : ℚ) - 0 < 21600) ∧
     (webGetCached [(chars "k", 7, 0)] 21600 21600 (chars "k") = none ↔ (21600 : ℚ) ≤ 21600 - 0) ∧
     (tradeGetCachedData [(chars "k", 7, 0)] 21600 21600 (chars "k") = some 7 ↔ (21600 : ℚ) - 0 < 21600) ∧
     (tradeGetCachedData [(chars "k", 7, 0)] 21600 21600 (chars "k") = none ↔ (21600 : ℚ) ≤ 21600 - 0)) :=
  ⟨by decide, ttl_cache_strict_lazy_expiry [(chars "k", 7, 0)] 21600 21600 (chars "k") 7 0 (by decide)⟩

/-- C9 (counterexample): at `now - stored_at = ttl` exactly, the claim says
the stored value is still returned (`≤ ttl`), but both readers use strict
`<` and treat the entry as absent. -/
theorem ttl_cache_boundary_absent_at_exact_ttl :
    ((21600 : ℚ) - 0 ≤ 21600) ∧
    webGetCached [(chars "k", 7, 0)] 21600 21600 (chars "k") = none ∧
    ((3600 : ℚ) - 0 ≤ 3600) ∧
    tradeGetCachedData [(chars "k", 7, 0)] 3600 3600 (chars "k") = none := by
  have hl : List.lookup (chars "k") [(chars "k", ((7 : ℕ), (0 : ℚ)))] = some (7, 0) := by
    decide
  refine ⟨by norm_num, ?_, by norm_num, ?_⟩
  · unfold webGetCached
    rw [hl]
    norm_num
  · unfold tradeGetCachedData
    rw [hl]
    norm_num

/-- C1: the claim fails on the code. If the FDA task's outcome is an
exception, `process_result(results[0], pd.DataFrame())` evaluates
`default or {}`, whose truth test on the `DataFrame` raises `ValueError`;
the outer handler then returns the error record with no per-source entries.
If instead the FDA task returns (its normal empty-`DataFrame` error result),
exceptions in all five remaining tasks are converted to defaults and the
record does contain an entry for every source. -/
theorem analyze_drug_fda_task_exception_collapses_record :
    (analyzeDrug [] (chars "metformin") (chars "oncology")
      ⟨.error (chars "RuntimeError: boom"), .error (chars "RuntimeError: boom"),
       .error (chars "RuntimeError: boom"), .error (chars "RuntimeError: boom"),
       .error (chars "RuntimeError: boom"), .error (chars "RuntimeError: boom")⟩
      (chars "2025-01-01T00:00:00")).record =
      .failure (chars "Analysis error: ValueError: The truth value of a DataFrame is ambiguous.") ∧
    (analyzeDrug [] (chars "metformin") (chars "oncology")
      ⟨.ok (.frame []), .error (chars "RuntimeError: boom"), .error (chars "RuntimeError: boom"),
       .error (chars "RuntimeError: boom"), .error (chars "RuntimeError: boom"),
       .error (chars "RuntimeError: boom")⟩ (chars "2025-01-01T00:00:00")).record =
      .success ⟨chars "metformin", chars "oncology", chars "2025-01-01T00:00:00",
        .records [], .dict [], patentDefault, clinicalDefault, webDefault, internalDefault⟩ := by
  constructor <;> rfl

/-- C2 (counterexample): a run in which every source agent errors
(in-contract error returns) yields status `"success"`, not `Failed`; a run
in which exactly one source errors also yields `"success"`, not
`Degraded`. -/
theorem analyze_drug_no_failed_or_degraded_status :
    recordStatus (analyzeDrug [] (chars "metformin") (chars "")
      ⟨.ok (.frame []), .ok (.dict [(chars "error", chars "API request failed")]),
       .ok (.dict [(chars "error", chars "API request failed")]),
       .ok (.dict [(chars "error", chars "Error processing request")]),
       .ok (.dict [(chars "error", chars "API request failed")]),
       .ok (.dict [(chars "error", chars "API request failed")])⟩
      (chars "2025-01-01T00:00:00")).record = chars "success" ∧
    chars "success" ≠ chars "Failed" ∧
    recordStatus (analyzeDrug [] (chars "metformin") (chars "")
      ⟨.ok (.records [chars "row"]), .ok (.dict [(chars "market_size", chars "$1B")]),
       .ok (.dict [(chars "active_patents", chars "3")]),
       .ok (.dict [(chars "error", chars "Error processing request")]),
       .ok (.dict [(chars "findings", chars "f")]),
       .ok (.dict [(chars "strategic_fit", chars "High")])⟩
      (chars "2025-01-01T00:00:00")).record = chars "success" ∧
    chars "success" ≠ chars "Degraded" := by
  refine ⟨by rfl, by decide, by rfl, by decide⟩

/-- C2 (amended): no `overall_status` classification exists. Whenever
validation passes and the record cache misses, the status of the returned
record is `"success"` exactly when the fan-in completes (and `"error"` only
when the fan-in itself raises) — independently of how many sources
errored. -/
theorem analyze_drug_status_always_success_on_completion
    (st : List (Str × Record)) (d a nowIso : Str) (o : TaskOutcomes)
    (hv : validateDrugName d = true)
    (hm : st.lookup (analysisCacheKey d a) = none) :
    recordStatus (analyzeDrug st d a o nowIso).record =
      (match analyzeCore o d a nowIso with
       | .ok _ => chars "success"
       | .error _ => chars "error") := by
  unfold analyzeDrug
  rw [hv]
  simp only [Bool.not_true, Bool.false_eq_true, if_false, hm]
  cases h : analyzeCore o d a nowIso <;> simp [recordStatus, h]

/-- C2 (witness): the amended statement evaluated on an all-`None` outcome
vector. -/
theorem analyze_drug_status_always_success_on_completion_witness :
    (validateDrugName (chars "metformin") = true) ∧
    (([] : List (Str × Record)).lookup (analysisCacheKey (chars "metformin") (chars "")) = none) ∧
    recordStatus (analyzeDrug [] (chars "metformin") (chars "")
      ⟨.ok .pyNone, .ok .pyNone, .ok .pyNone, .ok .pyNone, .ok .pyNone, .ok .pyNone⟩
      (chars "2025-01-01T00:00:00")).record =
      (match analyzeCore
          ⟨.ok .pyNone, .ok .pyNone, .ok .pyNone, .ok .pyNone, .ok .pyNone, .ok .pyNone⟩
          (chars "metformin") (chars "") (chars "2025-01-01T00:00:00") with
       | .ok _ => chars "success"
       | .error _ => chars "error") :=
  ⟨by decide, rfl,
   analyze_drug_status_always_success_on_completion [] (chars "metformin") (chars "")
     (chars "2025-01-01T00:00:00")
     ⟨.ok .pyNone, .ok .pyNone, .ok .pyNone, .ok .pyNone, .ok .pyNone, .ok .pyNone⟩
     (by decide) rfl⟩

/-- C3 (counterexample): when the first call ends in the error record (here:
every task raised, so the fan-in aborts per C1), the record is not cached and
the second call dispatches all 6 source-agent fetches again, not zero. -/
theorem analyze_drug_error_run_not_cached_redispatches :
    (analyzeDrug (analyzeDrug [] (chars "metformin") (chars "")
        ⟨.error (chars "RuntimeError: boom"), .error (chars "RuntimeError: boom"),
         .error (chars "RuntimeError: boom"), .error (chars "RuntimeError: boom"),
         .error (chars "RuntimeError: boom"), .error (chars "RuntimeError: boom")⟩
        (chars "t0")).state
      (chars "metformin") (chars "")
      ⟨.error (chars "RuntimeError: boom"), .error (chars "RuntimeError: boom"),
       .error (chars "RuntimeError: boom"), .error (chars "RuntimeError: boom"),
       .error (chars "RuntimeError: boom"), .error (chars "RuntimeError: boom")⟩
      (chars "t1")).dispatched = 6 ∧ (6 : ℕ) ≠ 0 := by
  constructor <;> decide

/-- C3 (amended): when the first `analyze_drug` call returns a
success-status record, a second call with the same drug name and therapeutic
area hits `st.session_state[cache_key]`, dispatches zero source-agent
fetches, and returns a record equal to the first call's (the record cache
has no TTL, so any later time is within it). -/
theorem analyze_drug_cached_second_call_zero_dispatch
    (st : List (Str × Record)) (d a : Str) (o1 o2 : TaskOutcomes) (t1 t2 : Str)
    (h : recordStatus (analyzeDrug st d a o1 t1).record = chars "success") :
    analyzeDrug (analyzeDrug st d a o1 t1).state d a o2 t2 =
      ⟨(analyzeDrug st d a o1 t1).record, (analyzeDrug st d a o1 t1).state, 0⟩ := by
  by_cases hv : validateDrugName d
  · cases hl : st.lookup (analysisCacheKey d a) with
    | some rec =>
      unfold analyzeDrug
      simp [hv, hl]
    | none =>
      cases hc : analyzeCore o1 d a t1 with
      | ok analysis =>
        unfold analyzeDrug
        simp [hv, hl, hc, List.lookup]
      | error m =>
        exfalso
        unfold analyzeDrug at h
        simp [hv, hl, hc, recordStatus] at h
        exact absurd h (by decide)
  · exfalso
    unfold analyzeDrug at h
    simp [hv, recordStatus] at h
    exact absurd h (by decide)

/-! ### Substring lemmas and the seeded-agent determinism claim -/

/-- The empty needle occurs in every haystack. -/
theorem containsSubL_nil_left (l : Str) : containsSubL [] l = true := by
  induction l with
  | nil => rfl
  | cons c t ih => rw [containsSubL, ih]; simp [isPrefixOfL]

/-- A list is a prefix of itself extended by anything. -/
theorem isPrefixOfL_self_append (n t : Str) : isPrefixOfL n (n ++ t) = true := by
  induction n with
  | nil => rfl
  | cons a as ih => simp [isPrefixOfL, ih]

/-- A needle occurs in any list that starts with it. -/
theorem containsSubL_self_append (n t : Str) : containsSubL n (n ++ t) = true := by
  cases n with
  | nil => exact containsSubL_nil_left _
  | cons c cs =>
    rw [List.cons_append, containsSubL, ← List.cons_append, isPrefixOfL_self_append]
    rfl

/-- An occurrence in `z` is an occurrence in `y ++ z`. -/
theorem containsSubL_append_of (y n z : Str) (h : containsSubL n z = true) :
    containsSubL n (y ++ z) = true := by
  induction y with
  | nil => simpa using h
  | cons d y' ih => rw [List.cons_append, containsSubL, ih]; simp

/-- If the character `c` does not occur in the needle, a prefix match cannot
reach past an occurrence of `c`: what follows `c` is irrelevant. -/
theorem isPrefixOfL_append_cons (n : Str) (c : Char) (hc : hasChar n c = false) :
    ∀ (u x : Str), isPrefixOfL n (u ++ c :: x) = isPrefixOfL n (u ++ [c]) := by
  induction n with
  | nil => intro u x; rfl
  | cons a as ih =>
    intro u x
    have h1 : (a == c) = false ∧ hasChar as c = false := by
      have := hc
      simp only [hasChar, List.any_cons, Bool.or_eq_false_iff] at this
      exact ⟨this.1, by simpa [hasChar] using this.2⟩
    cases u with
    | nil =>
      simp only [List.nil_append, isPrefixOfL, h1.1, Bool.false_and]
    | cons d u' =>
      rw [List.cons_append, List.cons_append]
      show (a == d && isPrefixOfL as (u' ++ c :: x)) = (a == d && isPrefixOfL as (u' ++ [c]))
      rw [ih h1.2 u' x]

/-- Splitting a substring search at a character `c` absent from the needle:
no occurrence can span across `c`. -/
theorem containsSubL_append_sep (n : Str) (c : Char) (hc : hasChar n c = false) :
    ∀ (p x : Str),
      containsSubL n (p ++ c :: x) = (containsSubL n (p ++ [c]) || containsSubL n x) := by
  intro p
  induction p with
  | nil =>
    intro x
    have h2 : isPrefixOfL n (c :: x) = isPrefixOfL n [c] := by
      simpa using isPrefixOfL_append_cons n c hc [] x
    rw [List.nil_append, List.nil_append, containsSubL, h2]
    cases n with
    | nil => simp [containsSubL, isPrefixOfL, containsSubL_nil_left]
    | cons a as =>
      rw [containsSubL, containsSubL]
      simp [isPrefixOfL, Bool.or_assoc]
  | cons d p' ih =>
    intro x
    have h2 : isPrefixOfL n (d :: (p' ++ c :: x)) = isPrefixOfL n (d :: (p' ++ [c])) := by
      have := isPrefixOfL_append_cons n c hc (d :: p') x
      simpa using this
    rw [List.cons_append, containsSubL, ih x, h2]
    conv_rhs => rw [List.cons_append, containsSubL]
    simp [Bool.or_assoc]

/-- Lowercasing distributes over concatenation. -/
theorem lowerL_append (x y : Str) : lowerL (x ++ y) = lowerL x ++ lowerL y := by
  simp [lowerL]

/-- For a drug name whose lowercase form does not contain `"composition"`,
the agent's `'composition' in title.lower()` test is true exactly on the
even-index (composition-and-method) titles. -/
theorem comp_flag_patentTitle (i : ℕ) (name : Str)
    (h : containsSubL (chars "composition") (lowerL name) = false) :
    containsSubL (chars "composition") (lowerL (patentTitle i name)) = (i % 2 == 0) := by
  unfold patentTitle
  by_cases he : (i % 2 == 0) = true
  · rw [if_pos he, he, lowerL_append, lowerL_append]
    rw [show lowerL (chars "Composition and method for ") =
        chars "composition" ++ chars " and method for " from by decide]
    rw [List.append_assoc]
    exact containsSubL_self_append _ _
  · rw [if_neg he, Bool.not_eq_true] at *
    rw [he, lowerL_append]
    rw [show lowerL (chars "Method of treating disease using ") =
        chars "method of treating disease using" ++ [' '] from by decide]
    rw [List.append_assoc]
    rw [show ([' '] : Str) ++ lowerL name = ' ' :: lowerL name from rfl]
    rw [containsSubL_append_sep _ ' ' (by decide) _ _, h]
    rw [show containsSubL (chars "composition")
        (chars "method of treating disease using" ++ [' ']) = false from by decide]
    rfl

/-- For a drug name whose lowercase form does not contain `"formulation"`,
the `'formulation' in title.lower()` test is true exactly on the even-index
titles. -/
theorem form_flag_patentTitle (i : ℕ) (name : Str)
    (h : containsSubL (chars "formulation") (lowerL name) = false) :
    containsSubL (chars "formulation") (lowerL (patentTitle i name)) = (i % 2 == 0) := by
  unfold patentTitle
  by_cases he : (i % 2 == 0) = true
  · rw [if_pos he, he, lowerL_append, lowerL_append]
    rw [show lowerL (chars " formulation") = [' '] ++ chars "formulation" from by decide]
    repeat apply containsSubL_append_of
    decide
  · rw [if_neg he, Bool.not_eq_true] at *
    rw [he, lowerL_append]
    rw [show lowerL (chars "Method of treating disease using ") =
        chars "method of treating disease using" ++ [' '] from by decide]
    rw [List.append_assoc]
    rw [show ([' '] : Str) ++ lowerL name = ' ' :: lowerL name from rfl]
    rw [containsSubL_append_sep _ ' ' (by decide) _ _, h]
    rw [show containsSubL (chars "formulation")
        (chars "method of treating disease using" ++ [' ']) = false from by decide]
    rfl

/-- Two drug names satisfying the substring provisos drive the timeline loop
identically: entry data-plus-flags and the final `(next_expiry, state)` pair
coincide. -/
theorem buildTimeline_core_eq (now : ℤ) (g : PRng) (a b : Str)
    (ha1 : containsSubL (chars "composition") (lowerL a) = false)
    (ha2 : containsSubL (chars "formulation") (lowerL a) = false)
    (hb1 : containsSubL (chars "composition") (lowerL b) = false)
    (hb2 : containsSubL (chars "formulation") (lowerL b) = false) :
    ∀ (pairs : List (ℕ × ℕ)) (s : ℕ) (ne : Option ℤ),
      (buildTimeline now g a pairs s ne).1.map entryFlags =
        (buildTimeline now g b pairs s ne).1.map entryFlags ∧
      (buildTimeline now g a pairs s ne).2 = (buildTimeline now g b pairs s ne).2 := by
  intro pairs
  induction pairs with
  | nil => intro s ne; exact ⟨rfl, rfl⟩
  | cons p rest ih =>
    obtain ⟨i, year⟩ := p
    intro s ne
    have hflags : entryFlags (patentEntryStep now g a i year s).1 =
        entryFlags (patentEntryStep now g b i year s).1 := by
      unfold entryFlags
      rw [show (patentEntryStep now g a i year s).1.title = patentTitle i a from rfl,
        show (patentEntryStep now g b i year s).1.title = patentTitle i b from rfl,
        comp_flag_patentTitle i a ha1, comp_flag_patentTitle i b hb1,
        form_flag_patentTitle i a ha2, form_flag_patentTitle i b hb2,
        show entryKeyData (patentEntryStep now g a i year s).1 =
          entryKeyData (patentEntryStep now g b i year s).1 from rfl]
    constructor
    · simp only [buildTimeline, List.map_cons]
      rw [hflags, (ih _ _).1]
      rfl
    · simp only [buildTimeline]
      exact (ih _ _).2

/-- Counting entries by a predicate that factors through `entryFlags`. -/
theorem countP_entryFlags (tl : List PatentEntry)
    (φ : ((Str × Str × Str × Str) × Bool × Bool) → Bool) :
    tl.countP (fun p => φ (entryFlags p)) = (tl.map entryFlags).countP φ := by
  rw [List.countP_map]
  rfl

/-- The name-free projection of the assembled analysis depends on the
timeline only through its per-entry data and substring flags. -/
theorem patentCore_assemblePatent_congr (now : ℤ) (cnt : ℕ) (tl₁ tl₂ : List PatentEntry)
    (ne₁ ne₂ : Option ℤ) (h : tl₁.map entryFlags = tl₂.map entryFlags) (hne : ne₁ = ne₂) :
    patentCore (assemblePatent now cnt tl₁ ne₁) = patentCore (assemblePatent now cnt tl₂ ne₂) := by
  subst hne
  have hActive : tl₁.countP (fun p => decide (p.status = chars "Active")) =
      tl₂.countP (fun p => decide (p.status = chars "Active")) := by
    calc tl₁.countP (fun p => decide (p.status = chars "Active"))
        = (tl₁.map entryFlags).countP (fun q => decide (q.1.2.2.2 = chars "Active")) :=
          countP_entryFlags tl₁ (fun q => decide (q.1.2.2.2 = chars "Active"))
      _ = (tl₂.map entryFlags).countP (fun q => decide (q.1.2.2.2 = chars "Active")) := by rw [h]
      _ = tl₂.countP (fun p => decide (p.status = chars "Active")) :=
          (countP_entryFlags tl₂ (fun q => decide (q.1.2.2.2 = chars "Active"))).symm
  have hCore : tl₁.countP (fun p => decide (p.status = chars "Active") &&
        containsSubL (chars "composition") (lowerL p.title)) =
      tl₂.countP (fun p => decide (p.status = chars "Active") &&
        containsSubL (chars "composition") (lowerL p.title)) := by
    calc tl₁.countP (fun p => decide (p.status = chars "Active") &&
          containsSubL (chars "composition") (lowerL p.title))
        = (tl₁.map entryFlags).countP (fun q => decide (q.1.2.2.2 = chars "Active") && q.2.1) :=
          countP_entryFlags tl₁ (fun q => decide (q.1.2.2.2 = chars "Active") && q.2.1)
      _ = (tl₂.map entryFlags).countP (fun q => decide (q.1.2.2.2 = chars "Active") && q.2.1) := by
          rw [h]
      _ = tl₂.countP (fun p => decide (p.status = chars "Active") &&
          containsSubL (chars "composition") (lowerL p.title)) :=
          (countP_entryFlags tl₂ (fun q => decide (q.1.2.2.2 = chars "Active") && q.2.1)).symm
  have hForm : tl₁.countP (fun p => containsSubL (chars "formulation") (lowerL p.title)) =
      tl₂.countP (fun p => containsSubL (chars "formulation") (lowerL p.title)) := by
    calc tl₁.countP (fun p => containsSubL (chars "formulation") (lowerL p.title))
        = (tl₁.map entryFlags).countP (fun q => q.2.2) :=
          countP_entryFlags tl₁ (fun q => q.2.2)
      _ = (tl₂.map entryFlags).countP (fun q => q.2.2) := by rw [h]
      _ = tl₂.countP (fun p => containsSubL (chars "formulation") (lowerL p.title)) :=
          (countP_entryFlags tl₂ (fun q => q.2.2)).symm
  have hKey : tl₁.map entryKeyData = tl₂.map entryKeyData := by
    calc tl₁.map entryKeyData = (tl₁.map entryFlags).map (fun q => q.1) := by
          rw [List.map_map]; rfl
      _ = (tl₂.map entryFlags).map (fun q => q.1) := by rw [h]
      _ = tl₂.map entryKeyData := by rw [List.map_map]; rfl
  simp only [patentCore, assemblePatent]
  rw [hActive, hCore, hForm, hKey]

/-- Patent half of the determinism claim: equal seeds and the substring
provisos give equal name-free patent analyses. -/
theorem getPatentAnalysis_core_eq (g : PRng) (now : ℤ) (a b : Str)
    (hsum : charSum a = charSum b)
    (ha1 : containsSubL (chars "composition") (lowerL a) = false)
    (ha2 : containsSubL (chars "formulation") (lowerL a) = false)
    (hb1 : containsSubL (chars "composition") (lowerL b) = false)
    (hb2 : containsSubL (chars "formulation") (lowerL b) = false) :
    patentCore (getPatentAnalysis g now a) = patentCore (getPatentAnalysis g now b) := by
  simp only [getPatentAnalysis]
  rw [hsum]
  refine patentCore_assemblePatent_congr now _ _ _ _ _ ?_ ?_
  · exact (buildTimeline_core_eq now g a b ha1 ha2 hb1 hb2 _ _ none).1
  · exact congrArg Prod.fst (buildTimeline_core_eq now g a b ha1 ha2 hb1 hb2 _ _ none).2

/-- Stable insertion commutes with mapping when the order factors through
the map. -/
theorem insertBy_map (f : α → β) (le : α → α → Bool) (le' : β → β → Bool)
    (hle : ∀ x y, le x y = le' (f x) (f y)) (x : α) :
    ∀ l : List α, (insertBy le x l).map f = insertBy le' (f x) (l.map f) := by
  intro l
  induction l with
  | nil => rfl
  | cons y ys ih =>
    rw [insertBy, List.map_cons, insertBy, ← hle x y]
    by_cases hxy : le x y = true
    · rw [hxy]
      simp only [if_true, List.map_cons]
    · rw [Bool.not_eq_true] at hxy
      rw [hxy]
      simp only [Bool.false_eq_true, if_false, List.map_cons, ih]

/-- The stable sort commutes with mapping when the order factors through the
map. -/
theorem sortBy_map (f : α → β) (le : α → α → Bool) (le' : β → β → Bool)
    (hle : ∀ x y, le x y = le' (f x) (f y)) :
    ∀ l : List α, (sortBy le l).map f = sortBy le' (l.map f) := by
  intro l
  induction l with
  | nil => rfl
  | cons x xs ih =>
    rw [sortBy, List.map_cons, sortBy, insertBy_map f le le' hle, ih]

/-- Two drug names drive the projects loop identically up to the
name-interpolating summary field. -/
theorem buildProjects_core_eq (g : PRng) (a b : Str) :
    ∀ (n s : ℕ),
      (buildProjects g a n s).1.map projectCore = (buildProjects g b n s).1.map projectCore ∧
      (buildProjects g a n s).2 = (buildProjects g b n s).2 := by
  intro n
  induction n with
  | zero => exact fun s => ⟨rfl, rfl⟩
  | succ n ih =>
    intro s
    constructor
    · simp only [buildProjects, List.map_cons]
      rw [show projectCore (projectStep g a s).1 = projectCore (projectStep g b s).1 from rfl,
        (ih _).1]
      rfl
    · simp only [buildProjects]
      exact (ih _).2

/-- Internal-insights half: equal seeds give equal name-free profiles. -/
theorem createDrugProfile_core_eq (g : PRng) (a b : Str) (hsum : charSum a = charSum b) :
    profileCore (createDrugProfile g a) = profileCore (createDrugProfile g b) := by
  simp only [createDrugProfile]
  rw [hsum]
  have hp := buildProjects_core_eq g a b
    (g.randint 0 4 (g.seedFn (charSum b))).1 (g.randint 0 4 (g.seedFn (charSum b))).2
  rw [hp.2]
  unfold profileCore
  simp only
  have hsort : (sortBy (fun x y => strLe y.date x.date)
        (buildProjects g a (g.randint 0 4 (g.seedFn (charSum b))).1
          (g.randint 0 4 (g.seedFn (charSum b))).2).1).map projectCore =
      (sortBy (fun x y => strLe y.date x.date)
        (buildProjects g b (g.randint 0 4 (g.seedFn (charSum b))).1
          (g.randint 0 4 (g.seedFn (charSum b))).2).1).map projectCore := by
    rw [sortBy_map projectCore (fun x y => strLe y.date x.date)
        (fun q r => strLe r.2.1 q.2.1) (fun x y => rfl),
      sortBy_map projectCore (fun x y => strLe y.date x.date)
        (fun q r => strLe r.2.1 q.2.1) (fun x y => rfl), hp.1]
  rw [hsort]
  rfl

/-- On a database without either key, `_get_or_create_drug_profile` takes the
creation path for both names. -/
theorem getOrCreateDrugProfile_core_eq (g : PRng) (db : List (Str × Profile)) (a b : Str)
    (hsum : charSum a = charSum b)
    (hfa : db.lookup (lowerL a) = none) (hfb : db.lookup (lowerL b) = none) :
    profileCore (getOrCreateDrugProfile g db a).1 =
      profileCore (getOrCreateDrugProfile g db b).1 := by
  simp only [getOrCreateDrugProfile, hfa, hfb]
  exact createDrugProfile_core_eq g a b hsum

/-- C10 (amended): for every generator semantics, current time and fresh
database, two drug names with equal lowercase character-code sums — neither of
whose lowercase forms contains `"composition"` or `"formulation"` (the
generated titles embed the name and the agent tests those titles for these
substrings) — produce identical simulated content up to the interpolated
name: equal name-free patent analyses (counts, patent numbers, dates,
freedom-to-operate, insights) and equal name-free internal profiles
(projects' title/date/status, full strategic fit, insight count, score
insight). -/
theorem seeded_agents_name_free_content_determinism (g : PRng) (now : ℤ)
    (db : List (Str × Profile)) (a b : Str)
    (hsum : charSum a = charSum b)
    (ha1 : containsSubL (chars "composition") (lowerL a) = false)
    (ha2 : containsSubL (chars "formulation") (lowerL a) = false)
    (hb1 : containsSubL (chars "composition") (lowerL b) = false)
    (hb2 : containsSubL (chars "formulation") (lowerL b) = false)
    (hfa : db.lookup (lowerL a) = none) (hfb : db.lookup (lowerL b) = none) :
    patentCore (getPatentAnalysis g now a) = patentCore (getPatentAnalysis g now b) ∧
    profileCore (getOrCreateDrugProfile g db a).1 =
      profileCore (getOrCreateDrugProfile g db b).1 :=
  ⟨getPatentAnalysis_core_eq g now a b hsum ha1 ha2 hb1 hb2,
   getOrCreateDrugProfile_core_eq g db a b hsum hfa hfb⟩

/-- C10 (witness): the anagram pair `"abc"` / `"cab"` under the concrete
generator `rngLo`. -/
theorem seeded_agents_name_free_content_determinism_witness :
    (charSum (chars "abc") = charSum (chars "cab") ∧
     containsSubL (chars "composition") (lowerL (chars "abc")) = false ∧
     containsSubL (chars "formulation") (lowerL (chars "abc")) = false ∧
     containsSubL (chars "composition") (lowerL (chars "cab")) = false ∧
     containsSubL (chars "formulation") (lowerL (chars "cab")) = false ∧
     ([] : List (Str × Profile)).lookup (lowerL (chars "abc")) = none ∧
     ([] : List (Str × Profile)).lookup (lowerL (chars "cab")) = none) ∧
    (patentCore (getPatentAnalysis rngLo 0 (chars "abc")) =
       patentCore (getPatentAnalysis rngLo 0 (chars "cab")) ∧
     profileCore (getOrCreateDrugProfile rngLo [] (chars "abc")).1 =
       profileCore (getOrCreateDrugProfile rngLo [] (chars "cab")).1) :=
  ⟨⟨by decide, by decide, by decide, by decide, by decide, rfl, rfl⟩,
   seeded_agents_name_free_content_determinism rngLo 0 [] (chars "abc") (chars "cab")
     (by decide) (by decide) (by decide) (by decide) (by decide) rfl rfl⟩

/-- C10 (counterexample): the anagrams `"xformulation"` and `"xofrmulation"`
have equal char-code sums, yet under the generator `rngLo` the patent agent
produces different `key_insights` — and the drug names do not occur in either
insight list, so the difference is not name interpolation: the
`'formulation' in title.lower()` test sees the name embedded in the
method-of-use titles. -/
theorem patent_insights_differ_for_equal_seed_names :
    charSum (chars "xformulation") = charSum (chars "xofrmulation") ∧
    (getPatentAnalysis rngLo 0 (chars "xformulation")).keyInsights ≠
      (getPatentAnalysis rngLo 0 (chars "xofrmulation")).keyInsights ∧
    ((getPatentAnalysis rngLo 0 (chars "xformulation")).keyInsights.all
      (fun ins => !(containsSubL (chars "xformulation") ins) &&
                  !(containsSubL (chars "xofrmulation") ins)) = true) ∧
    ((getPatentAnalysis rngLo 0 (chars "xofrmulation")).keyInsights.all
      (fun ins => !(containsSubL (chars "xformulation") ins) &&
                  !(containsSubL (chars "xofrmulation") ins)) = true) := by
  refine ⟨by decide, by decide, by decide, by decide⟩

/-- C3 (witness): a successful first run from an empty session state, then a
second call for the same drug and area. -/
theorem analyze_drug_cached_second_call_zero_dispatch_witness :
    (recordStatus (analyzeDrug [] (chars "metformin") (chars "oncology")
        ⟨.ok .pyNone, .ok .pyNone, .ok .pyNone, .ok .pyNone, .ok .pyNone, .ok .pyNone⟩
        (chars "t0")).record = chars "success") ∧
    analyzeDrug (analyzeDrug [] (chars "metformin") (chars "oncology")
        ⟨.ok .pyNone, .ok .pyNone, .ok .pyNone, .ok .pyNone, .ok .pyNone, .ok .pyNone⟩
        (chars "t0")).state (chars "metformin") (chars "oncology")
        ⟨.error (chars "RuntimeError: boom"), .error (chars "RuntimeError: boom"),
         .error (chars "RuntimeError: boom"), .error (chars "RuntimeError: boom"),
         .error (chars "RuntimeError: boom"), .error (chars "RuntimeError: boom")⟩
        (chars "t1") =
      ⟨(analyzeDrug [] (chars "metformin") (chars "oncology")
          ⟨.ok .pyNone, .ok .pyNone, .ok .pyNone, .ok .pyNone, .ok .pyNone, .ok .pyNone⟩
          (chars "t0")).record,
       (analyzeDrug [] (chars "metformin") (chars "oncology")
          ⟨.ok .pyNone, .ok .pyNone, .ok .pyNone, .ok .pyNone, .ok .pyNone, .ok .pyNone⟩
          (chars "t0")).state, 0⟩ :=
  ⟨by decide,
   analyze_drug_cached_second_call_zero_dispatch [] (chars "metformin") (chars "oncology")
     ⟨.ok .pyNone, .ok .pyNone, .ok .pyNone, .ok .pyNone, .ok .pyNone, .ok .pyNone⟩
     ⟨.error (chars "RuntimeError: boom"), .error (chars "RuntimeError: boom"),
      .error (chars "RuntimeError: boom"), .error (chars "RuntimeError: boom"),
      .error (chars "RuntimeError: boom"), .error (chars "RuntimeError: boom")⟩
     (chars "t0") (chars "t1") (by decide)⟩
